import Mathlib

/-!
Verification of the authorization and comment-visibility core of the
crowdfunding REST API (apps `fundraisers` and `users`), shallowly embedded
from `crowdfunding/fundraisers/serializers.py`,
`crowdfunding/fundraisers/permissions.py` and
`crowdfunding/fundraisers/views.py`.

Database rows become Lean structures; `request.user` becomes a `Principal`
(authenticated user or the anonymous user); each handler becomes a function
from the requester, the loaded object and the request payload to either an
error response or the object as saved.  An `Except.error` result models a
request that returns an error response without persisting anything.
-/

namespace Crowdfunding

/-- A stored user row (`CustomUser`): only the primary key matters to the
core logic, since every ownership check compares user identity. -/
structure User where
  id : Nat
deriving DecidableEq, Repr

/-- The principal attached to a request. `request.user` is either an
authenticated `CustomUser` (`is_authenticated = True`) or Django's
`AnonymousUser` (`is_authenticated = False`), which never equals a stored
user. A missing request in the serializer context behaves like anonymous. -/
inductive Principal where
  | anonymous : Principal
  | auth : User → Principal
deriving DecidableEq, Repr

/-- `user.is_authenticated`. -/
def is_authenticated : Principal → Bool
  | Principal.anonymous => false
  | Principal.auth _ => true

/-- `request.user == target` for a stored user `target`: an anonymous
principal never equals a stored user; authenticated users compare by
identity. -/
def req_user_eq (viewer : Principal) (target : User) : Bool :=
  match viewer with
  | Principal.anonymous => false
  | Principal.auth u => u == target

/-- A `Fundraiser` row. Field list as enumerated by
`FundraiserDetailSerializer.update` plus the owner foreign key. -/
structure Fundraiser where
  id : Nat
  title : String
  description : String
  goal : Int
  image : String
  is_open : Bool
  date_created : Nat
  owner : User
deriving DecidableEq, Repr

/-- A `Pledge` row. The fundraiser foreign key is embedded so that
`pledge.fundraiser.owner` is available, as the serializers use it. -/
structure Pledge where
  id : Nat
  amount : Int
  comment : String
  anonymous : Bool
  date_created : Nat
  is_hidden_by_owner : Bool
  fundraiser : Fundraiser
  supporter : User
deriving DecidableEq, Repr

/-- The JSON object served for a pledge: all model fields, foreign keys as
bare ids (`supporter` via `ReadOnlyField(source='supporter.id')` in the
list serializer, `PrimaryKeyRelatedField` in the detail serializer). -/
structure PledgeRepr where
  id : Nat
  amount : Int
  comment : String
  anonymous : Bool
  date_created : Nat
  is_hidden_by_owner : Bool
  fundraiser : Nat
  supporter : Nat
deriving DecidableEq, Repr

/-- HTTP methods relevant to the views. -/
inductive Method where
  | GET | HEAD | OPTIONS | POST | PUT | PATCH | DELETE
deriving DecidableEq, Repr

/-- `rest_framework.permissions.SAFE_METHODS`. -/
def SAFE_METHODS : List Method := [Method.GET, Method.HEAD, Method.OPTIONS]

namespace IsOwnerOrReadOnly

/-- `IsOwnerOrReadOnly.has_object_permission`: safe methods are always
allowed; unsafe methods require `obj.owner == request.user`. -/
def has_object_permission (method : Method) (requester : Principal)
    (obj : Fundraiser) : Bool :=
  if method ∈ SAFE_METHODS then
    true
  else
    req_user_eq requester obj.owner

end IsOwnerOrReadOnly

namespace IsAuthenticatedOrReadOnly

/-- `permissions.IsAuthenticatedOrReadOnly.has_permission`: safe methods
always pass; unsafe methods require an authenticated principal. -/
def has_permission (method : Method) (requester : Principal) : Bool :=
  decide (method ∈ SAFE_METHODS) || is_authenticated requester

end IsAuthenticatedOrReadOnly

namespace PledgeSerializer

/-- Default `ModelSerializer.to_representation` for `fields = '__all__'`:
every model field at its stored value, with `supporter` rendered as
`supporter.id` and the fundraiser foreign key as its primary key. -/
def base_fields (inst : Pledge) : PledgeRepr :=
  { id := inst.id
    amount := inst.amount
    comment := inst.comment
    anonymous := inst.anonymous
    date_created := inst.date_created
    is_hidden_by_owner := inst.is_hidden_by_owner
    fundraiser := inst.fundraiser.id
    supporter := inst.supporter.id }

/-- `PledgeSerializer.to_representation`: when the pledge comment is hidden
by the fundraiser owner, the owner and the supporter still see it; everyone
else sees an empty comment. -/
def to_representation (inst : Pledge) (viewer : Principal) : PledgeRepr :=
  let data := base_fields inst
  if inst.is_hidden_by_owner then
    let is_owner := is_authenticated viewer
      && req_user_eq viewer inst.fundraiser.owner
    let is_supporter := is_authenticated viewer
      && req_user_eq viewer inst.supporter
    if !is_owner && !is_supporter then
      { data with comment := "" }
    else
      data
  else
    data

/-- `PledgeSerializer.validate_amount`: a non-positive amount raises a
`ValidationError` before anything is saved. -/
def validate_amount (value : Int) : Except String Int :=
  if value ≤ 0 then
    Except.error "Amount must be greater than zero."
  else
    Except.ok value

end PledgeSerializer

namespace PledgeDetailSerializer

/-- Default representation for the detail serializer: the same eight model
fields, with the read-only relations rendered as primary keys. -/
def base_fields (inst : Pledge) : PledgeRepr :=
  { id := inst.id
    amount := inst.amount
    comment := inst.comment
    anonymous := inst.anonymous
    date_created := inst.date_created
    is_hidden_by_owner := inst.is_hidden_by_owner
    fundraiser := inst.fundraiser.id
    supporter := inst.supporter.id }

/-- `PledgeDetailSerializer.to_representation`: applies the same
comment-hiding logic as `PledgeSerializer` when returning a single pledge. -/
def to_representation (inst : Pledge) (viewer : Principal) : PledgeRepr :=
  let data := base_fields inst
  if inst.is_hidden_by_owner then
    let is_owner := is_authenticated viewer
      && req_user_eq viewer inst.fundraiser.owner
    let is_supporter := is_authenticated viewer
      && req_user_eq viewer inst.supporter
    if !is_owner && !is_supporter then
      { data with comment := "" }
    else
      data
  else
    data

end PledgeDetailSerializer

namespace FundraiserSerializer

/-- `FundraiserSerializer.validate_goal`: a non-positive goal raises a
`ValidationError` before anything is saved. -/
def validate_goal (value : Int) : Except String Int :=
  if value ≤ 0 then
    Except.error "Goal must be greater than zero."
  else
    Except.ok value

end FundraiserSerializer

/-- The JSON object served for a fundraiser detail view: all fundraiser
fields with the owner as a bare id, plus the nested, filtered pledge list. -/
structure FundraiserDetailRepr where
  id : Nat
  title : String
  description : String
  goal : Int
  image : String
  is_open : Bool
  date_created : Nat
  owner : Nat
  pledges : List PledgeRepr
deriving DecidableEq, Repr

namespace FundraiserDetailSerializer

/-- `FundraiserDetailSerializer.to_representation`:
`pledges = PledgeSerializer(many=True, read_only=True)` serialises each
related pledge with `PledgeSerializer`, sharing the request context, so the
nested items pass through the same visibility filter. `pledge_set` is the
reverse foreign-key queryset of the fundraiser. -/
def to_representation (inst : Fundraiser) (pledge_set : List Pledge)
    (viewer : Principal) : FundraiserDetailRepr :=
  { id := inst.id
    title := inst.title
    description := inst.description
    goal := inst.goal
    image := inst.image
    is_open := inst.is_open
    date_created := inst.date_created
    owner := inst.owner.id
    pledges := pledge_set.map (fun p => PledgeSerializer.to_representation p viewer) }

end FundraiserDetailSerializer

/-- A JSON scalar as Python sees it after parsing the request body: the
forms the hide-toggle handler compares against are booleans, ints and
strings. -/
inductive PValue where
  | pybool : Bool → PValue
  | pyint : Int → PValue
  | pystr : String → PValue
deriving DecidableEq, Repr

/-- Python `==` on these scalars: `True == 1` and `False == 0` (bool is an
int subtype), strings compare by content, and strings never equal
numbers. -/
def pyEq : PValue → PValue → Bool
  | PValue.pybool a, PValue.pybool b => a == b
  | PValue.pybool a, PValue.pyint n => (if a then (1 : Int) else 0) == n
  | PValue.pyint n, PValue.pybool b => n == (if b then (1 : Int) else 0)
  | PValue.pyint m, PValue.pyint n => m == n
  | PValue.pystr s, PValue.pystr t => s == t
  | _, _ => false

/-- Python `x in list` membership, which tests with `==`. -/
def pyIn (v : PValue) : List PValue → Bool
  | [] => false
  | w :: ws => pyEq v w || pyIn v ws

/-- The error responses the embedded handlers can return. `unauthenticated`
is the 401 produced by `IsAuthenticatedOrReadOnly` for an unsafe request
with no principal, `forbidden` a 403, `badRequest` a 400 validation
error. An error result persists nothing. -/
inductive ApiError where
  | unauthenticated : ApiError
  | forbidden : ApiError
  | badRequest : ApiError
deriving DecidableEq, Repr

namespace IsSupporterOrFundraiserOwnerOrReadOnly

/-- `IsSupporterOrFundraiserOwnerOrReadOnly.has_object_permission`, from
`crowdfunding/fundraisers/permissions.py` (history snapshot
`permissions_20251214144427.py`): safe methods are always allowed; for
unsafe methods the requester must be the pledge's supporter or the owner
of the pledge's fundraiser
(`obj.supporter == request.user or obj.fundraiser.owner == request.user`);
an anonymous requester equals neither. -/
def has_object_permission (method : Method) (requester : Principal)
    (obj : Pledge) : Bool :=
  if method ∈ SAFE_METHODS then
    true
  else
    req_user_eq requester obj.supporter
      || req_user_eq requester obj.fundraiser.owner

end IsSupporterOrFundraiserOwnerOrReadOnly

/-- The payload of a PUT on a pledge, already parsed into field slots:
`none` means the key is absent (the view passes `partial=True`, so absent
keys are allowed). Keys for the read-only fields may be supplied but are
dropped during validation. -/
structure PledgePutData where
  comment : Option String
  anonymous : Option Bool
  amount : Option Int
  fundraiser : Option Nat
  supporter : Option Nat
  is_hidden_by_owner : Option Bool
  date_created : Option Nat
deriving DecidableEq, Repr

namespace PledgeDetail

/-- `PledgeDetail.put`: after the view-level authentication gate and the
object-level permission, only the supporter may edit; the
`PledgeDetailSerializer` declares `id`, `amount`, `fundraiser`,
`supporter`, `date_created` and `is_hidden_by_owner` read-only, so
`validated_data` can only contain `comment` and `anonymous`. `comment` is
a `CharField`, which trims surrounding whitespace and rejects a blank
result. -/
def put (requester : Principal) (pledge : Pledge) (data : PledgePutData) :
    Except ApiError Pledge :=
  if !(IsAuthenticatedOrReadOnly.has_permission Method.PUT requester) then
    Except.error ApiError.unauthenticated
  else if !(IsSupporterOrFundraiserOwnerOrReadOnly.has_object_permission
      Method.PUT requester pledge) then
    Except.error ApiError.forbidden
  else if !(req_user_eq requester pledge.supporter) then
    Except.error ApiError.forbidden
  else
    match data.comment with
    | some c =>
        let trimmed := c.trim
        if trimmed = "" then
          Except.error ApiError.badRequest
        else
          Except.ok { pledge with
            comment := trimmed
            anonymous := data.anonymous.getD pledge.anonymous }
    | none =>
        Except.ok { pledge with
          anonymous := data.anonymous.getD pledge.anonymous }

/-- `PledgeDetail.patch`: the fundraiser owner toggles
`is_hidden_by_owner`. The payload value for the key (or `none` when the
key is missing) is matched against the literal lists of the source with
Python membership. -/
def patch (requester : Principal) (pledge : Pledge)
    (payload : Option PValue) : Except ApiError Pledge :=
  if !(IsAuthenticatedOrReadOnly.has_permission Method.PATCH requester) then
    Except.error ApiError.unauthenticated
  else if !(IsSupporterOrFundraiserOwnerOrReadOnly.has_object_permission
      Method.PATCH requester pledge) then
    Except.error ApiError.forbidden
  else if !(req_user_eq requester pledge.fundraiser.owner) then
    Except.error ApiError.forbidden
  else
    match payload with
    | none => Except.error ApiError.badRequest
    | some raw_value =>
        if pyIn raw_value [PValue.pybool true, PValue.pystr "true",
            PValue.pystr "True", PValue.pystr "1", PValue.pyint 1] then
          Except.ok { pledge with is_hidden_by_owner := true }
        else if pyIn raw_value [PValue.pybool false, PValue.pystr "false",
            PValue.pystr "False", PValue.pystr "0", PValue.pyint 0] then
          Except.ok { pledge with is_hidden_by_owner := false }
        else
          Except.error ApiError.badRequest

/-- `PledgeDetail.delete`: the supporter clears their comment; the row is
saved with `comment = ""` and is not deleted. -/
def delete (requester : Principal) (pledge : Pledge) :
    Except ApiError Pledge :=
  if !(IsAuthenticatedOrReadOnly.has_permission Method.DELETE requester) then
    Except.error ApiError.unauthenticated
  else if !(IsSupporterOrFundraiserOwnerOrReadOnly.has_object_permission
      Method.DELETE requester pledge) then
    Except.error ApiError.forbidden
  else if !(req_user_eq requester pledge.supporter) then
    Except.error ApiError.forbidden
  else
    Except.ok { pledge with comment := "" }

end PledgeDetail

/-- The payload of a PUT on a fundraiser, parsed into field slots; `none`
means the key is absent (`partial=True`). An `owner` key may be supplied
but never survives validation. -/
structure FundraiserPutData where
  title : Option String
  description : Option String
  goal : Option Int
  image : Option String
  is_open : Option Bool
  date_created : Option Nat
  owner : Option Nat
deriving DecidableEq, Repr

/-- The `validated_data` dictionary reaching
`FundraiserDetailSerializer.update`. -/
structure FundraiserValidatedData where
  title : Option String
  description : Option String
  goal : Option Int
  image : Option String
  is_open : Option Bool
  date_created : Option Nat
  owner : Option User
deriving DecidableEq, Repr

namespace FundraiserSerializer

/-- `serializer.is_valid()` on a partial fundraiser update: `owner` is a
`ReadOnlyField`, so it is dropped and never enters `validated_data`;
`validate_goal` runs on a supplied goal and rejects non-positive values. -/
def run_validation (data : FundraiserPutData) :
    Except ApiError FundraiserValidatedData :=
  match data.goal with
  | some g =>
      match validate_goal g with
      | Except.error _ => Except.error ApiError.badRequest
      | Except.ok g2 =>
          Except.ok { title := data.title, description := data.description,
                      goal := some g2, image := data.image,
                      is_open := data.is_open,
                      date_created := data.date_created, owner := none }
  | none =>
      Except.ok { title := data.title, description := data.description,
                  goal := none, image := data.image,
                  is_open := data.is_open,
                  date_created := data.date_created, owner := none }

end FundraiserSerializer

namespace FundraiserDetailSerializer

/-- `FundraiserDetailSerializer.update`: each field is taken from
`validated_data` when present, otherwise kept from the instance, exactly
as the source writes `validated_data.get(key, current)` for each of the
seven fields. -/
def update (inst : Fundraiser) (validated_data : FundraiserValidatedData) :
    Fundraiser :=
  { inst with
    title := validated_data.title.getD inst.title
    description := validated_data.description.getD inst.description
    goal := validated_data.goal.getD inst.goal
    image := validated_data.image.getD inst.image
    is_open := validated_data.is_open.getD inst.is_open
    date_created := validated_data.date_created.getD inst.date_created
    owner := validated_data.owner.getD inst.owner }

end FundraiserDetailSerializer

namespace FundraiserDetail

/-- `FundraiserDetail.put`: `IsAuthenticatedOrReadOnly` and
`IsOwnerOrReadOnly` both gate the request; on success the serializer
validates the partial payload and `update` saves the result. -/
def put (requester : Principal) (f : Fundraiser)
    (data : FundraiserPutData) : Except ApiError Fundraiser :=
  if !(IsAuthenticatedOrReadOnly.has_permission Method.PUT requester) then
    Except.error ApiError.unauthenticated
  else if !(IsOwnerOrReadOnly.has_object_permission Method.PUT requester f) then
    Except.error ApiError.forbidden
  else
    match FundraiserSerializer.run_validation data with
    | Except.error e => Except.error e
    | Except.ok vd => Except.ok (FundraiserDetailSerializer.update f vd)

end FundraiserDetail

/-- The payload of a POST creating a fundraiser. -/
structure FundraiserCreateData where
  title : String
  description : String
  goal : Int
  image : String
  is_open : Bool
deriving DecidableEq, Repr

namespace FundraiserList

/-- `FundraiserList.post`: requires an authenticated principal
(`IsAuthenticatedOrReadOnly`); `validate_goal` rejects a non-positive goal
before the save; on success `serializer.save(owner=request.user)` stores
the requester as owner. `fresh_id` and `now` stand for the primary key and
server timestamp assigned by the store. -/
def post (requester : Principal) (data : FundraiserCreateData)
    (fresh_id now : Nat) : Except ApiError Fundraiser :=
  match requester with
  | Principal.anonymous => Except.error ApiError.unauthenticated
  | Principal.auth u =>
      match FundraiserSerializer.validate_goal data.goal with
      | Except.error _ => Except.error ApiError.badRequest
      | Except.ok g =>
          Except.ok { id := fresh_id, title := data.title,
                      description := data.description, goal := g,
                      image := data.image, is_open := data.is_open,
                      date_created := now, owner := u }

end FundraiserList

/-- The payload of a POST creating a pledge (the writable serializer
fields; `supporter` and `is_hidden_by_owner` are read-only and set by the
server). -/
structure PledgeCreateData where
  amount : Int
  comment : String
  anonymous : Bool
  fundraiser : Fundraiser
deriving DecidableEq, Repr

namespace PledgeList

/-- `PledgeList.post`: requires an authenticated principal;
`validate_amount` rejects a non-positive amount before the save; on
success `serializer.save(supporter=request.user)` stores the requester as
supporter, and the hidden flag starts false (the `Pledge` model declares
`is_hidden_by_owner = models.BooleanField(default=False)`, history
snapshot `models_20251214131833.py`). -/
def post (requester : Principal) (data : PledgeCreateData)
    (fresh_id now : Nat) : Except ApiError Pledge :=
  match requester with
  | Principal.anonymous => Except.error ApiError.unauthenticated
  | Principal.auth u =>
      match PledgeSerializer.validate_amount data.amount with
      | Except.error _ => Except.error ApiError.badRequest
      | Except.ok a =>
          Except.ok { id := fresh_id, amount := a, comment := data.comment,
                      anonymous := data.anonymous, date_created := now,
                      is_hidden_by_owner := false,
                      fundraiser := data.fundraiser, supporter := u }

end PledgeList

/-- The literal forms the hide-toggle accepts as true, as plain values:
the source list `[True, 'true', 'True', '1', 1]` closed under Python
equality (which adds nothing: `True == 1` is already listed). -/
def acceptedTrueForms : List PValue :=
  [PValue.pybool true, PValue.pyint 1, PValue.pystr "true",
   PValue.pystr "True", PValue.pystr "1"]

/-- The literal forms the hide-toggle accepts as false. -/
def acceptedFalseForms : List PValue :=
  [PValue.pybool false, PValue.pyint 0, PValue.pystr "false",
   PValue.pystr "False", PValue.pystr "0"]

/-! Concrete fixtures, used by witnesses and counterexamples. -/

/-- Fixture: the fundraiser owner. -/
def alice : User := { id := 1 }

/-- Fixture: the pledge supporter. -/
def bob : User := { id := 2 }

/-- Fixture: a third user, neither owner nor supporter. -/
def carol : User := { id := 3 }

/-- Fixture: a fundraiser owned by alice. -/
def school_fund : Fundraiser :=
  { id := 10, title := "Build a School", description := "Help us build it",
    goal := 1000, image := "school.jpg", is_open := true,
    date_created := 100, owner := alice }

/-- Fixture: bob's pledge to alice's fundraiser, not hidden. -/
def bob_pledge : Pledge :=
  { id := 20, amount := 50, comment := "Happy to help", anonymous := false,
    date_created := 101, is_hidden_by_owner := false,
    fundraiser := school_fund, supporter := bob }

/-- Fixture: the same pledge with its comment hidden by the owner. -/
def hidden_pledge : Pledge := { bob_pledge with is_hidden_by_owner := true }

/-! Theorems. -/

/-- Helper: the list serializer's output, written as a single conditional:
the base fields, with the comment emptied exactly when the pledge is
hidden and the viewer is neither the fundraiser owner nor the supporter. -/
theorem PledgeSerializer.to_representation_spec (p : Pledge) (viewer : Principal) :
    PledgeSerializer.to_representation p viewer =
      (if p.is_hidden_by_owner = true ∧
          viewer ≠ Principal.auth p.fundraiser.owner ∧
          viewer ≠ Principal.auth p.supporter then
        { PledgeSerializer.base_fields p with comment := "" }
      else
        PledgeSerializer.base_fields p) := by
  unfold PledgeSerializer.to_representation
  cases hb : p.is_hidden_by_owner with
  | false => simp [hb]
  | true =>
      cases viewer with
      | anonymous => simp [hb, is_authenticated, req_user_eq]
      | auth u =>
          by_cases ho : u = p.fundraiser.owner <;>
            by_cases hs : u = p.supporter <;>
              simp [hb, is_authenticated, req_user_eq, ho, hs]

/-- Helper: the detail serializer computes the same representation as the
list serializer, on every pledge and for every viewer. -/
theorem PledgeDetailSerializer.agrees_with_list_serializer
    (p : Pledge) (viewer : Principal) :
    PledgeDetailSerializer.to_representation p viewer =
      PledgeSerializer.to_representation p viewer := rfl

/-- C1: the visibility filter produces the pledge's stored field values
unchanged, except that the comment is replaced with the empty string
exactly when the pledge is hidden and the viewer is neither the
fundraiser's owner nor the pledge's supporter (the anonymous viewer
included). -/
theorem visibility_filter_redacts_exactly_comment
    (p : Pledge) (viewer : Principal) :
    (PledgeSerializer.to_representation p viewer).id = p.id ∧
    (PledgeSerializer.to_representation p viewer).amount = p.amount ∧
    (PledgeSerializer.to_representation p viewer).anonymous = p.anonymous ∧
    (PledgeSerializer.to_representation p viewer).date_created = p.date_created ∧
    (PledgeSerializer.to_representation p viewer).is_hidden_by_owner
      = p.is_hidden_by_owner ∧
    (PledgeSerializer.to_representation p viewer).fundraiser = p.fundraiser.id ∧
    (PledgeSerializer.to_representation p viewer).supporter = p.supporter.id ∧
    (PledgeSerializer.to_representation p viewer).comment =
      (if p.is_hidden_by_owner = true ∧
          viewer ≠ Principal.auth p.fundraiser.owner ∧
          viewer ≠ Principal.auth p.supporter then "" else p.comment) := by
  rw [PledgeSerializer.to_representation_spec]
  by_cases h : p.is_hidden_by_owner = true ∧
      viewer ≠ Principal.auth p.fundraiser.owner ∧
      viewer ≠ Principal.auth p.supporter <;>
    simp [h, PledgeSerializer.base_fields]

/-- C2: IsOwnerOrReadOnly allows every safe (read) request, and allows an
unsafe (write or delete) request exactly when the principal is the
fundraiser's owner; anonymous principals never pass the ownership check. -/
theorem is_owner_or_read_only_exact
    (m : Method) (requester : Principal) (f : Fundraiser) :
    (m ∈ SAFE_METHODS →
      IsOwnerOrReadOnly.has_object_permission m requester f = true) ∧
    (m ∉ SAFE_METHODS →
      (IsOwnerOrReadOnly.has_object_permission m requester f = true ↔
        requester = Principal.auth f.owner)) := by
  constructor
  · intro h
    simp [IsOwnerOrReadOnly.has_object_permission, h]
  · intro h
    cases requester with
    | anonymous =>
        simp [IsOwnerOrReadOnly.has_object_permission, h, req_user_eq]
    | auth u =>
        simp [IsOwnerOrReadOnly.has_object_permission, h, req_user_eq]

/-- C2 witness: an anonymous GET on the fixture fundraiser is allowed; a
PUT by the owner alice is allowed; a PUT by bob is denied. -/
theorem is_owner_or_read_only_exact_witness :
    IsOwnerOrReadOnly.has_object_permission Method.GET Principal.anonymous
      school_fund = true ∧
    IsOwnerOrReadOnly.has_object_permission Method.PUT (Principal.auth alice)
      school_fund = true ∧
    IsOwnerOrReadOnly.has_object_permission Method.PUT (Principal.auth bob)
      school_fund = false := by
  refine ⟨?_, ?_, ?_⟩
  · exact (is_owner_or_read_only_exact Method.GET Principal.anonymous
      school_fund).1 (by decide)
  · exact ((is_owner_or_read_only_exact Method.PUT (Principal.auth alice)
      school_fund).2 (by decide)).mpr (by decide)
  · have h := (is_owner_or_read_only_exact Method.PUT (Principal.auth bob)
      school_fund).2 (by decide)
    rw [Bool.eq_false_iff]
    intro hb
    exact absurd (h.mp hb) (by decide)

/-- C4: the pledge items nested in a fundraiser's detail representation
are, item for item, exactly the representations the standalone pledge
detail endpoint serves the same viewer. -/
theorem nested_pledges_equal_standalone
    (f : Fundraiser) (pledge_set : List Pledge) (viewer : Principal) :
    (FundraiserDetailSerializer.to_representation f pledge_set viewer).pledges =
      pledge_set.map
        (fun p => PledgeDetailSerializer.to_representation p viewer) := by
  simp [FundraiserDetailSerializer.to_representation]
  intro p _
  exact (PledgeDetailSerializer.agrees_with_list_serializer p viewer).symm

/-- C10: the served representation of a pledge always carries the
supporter's user id, whatever the viewer, the anonymous flag and the
hidden flag: the anonymous flag redacts nothing. -/
theorem supporter_id_always_served (p : Pledge) (viewer : Principal) :
    (PledgeSerializer.to_representation p viewer).supporter = p.supporter.id ∧
    (PledgeDetailSerializer.to_representation p viewer).supporter
      = p.supporter.id ∧
    (PledgeSerializer.to_representation p viewer).anonymous = p.anonymous := by
  rw [PledgeDetailSerializer.agrees_with_list_serializer,
    PledgeSerializer.to_representation_spec]
  by_cases h : p.is_hidden_by_owner = true ∧
      viewer ≠ Principal.auth p.fundraiser.owner ∧
      viewer ≠ Principal.auth p.supporter <;>
    simp [h, PledgeSerializer.base_fields]

/-- Helper: a PATCH by the fundraiser owner with the key missing is a
validation error (the permission gates all pass). -/
theorem PledgeDetail.patch_owner_none (p : Pledge) (u : User)
    (hu : u = p.fundraiser.owner) :
    PledgeDetail.patch (Principal.auth u) p none
      = Except.error ApiError.badRequest := by
  subst hu
  unfold PledgeDetail.patch
  simp [IsAuthenticatedOrReadOnly.has_permission,
    IsSupporterOrFundraiserOwnerOrReadOnly.has_object_permission,
    is_authenticated, req_user_eq, SAFE_METHODS]

/-- Helper: a PATCH by the fundraiser owner with a value reduces to the
source's two membership tests. -/
theorem PledgeDetail.patch_owner_some (p : Pledge) (u : User)
    (hu : u = p.fundraiser.owner) (v : PValue) :
    PledgeDetail.patch (Principal.auth u) p (some v) =
      (if pyIn v [PValue.pybool true, PValue.pystr "true",
          PValue.pystr "True", PValue.pystr "1", PValue.pyint 1] then
        Except.ok { p with is_hidden_by_owner := true }
      else if pyIn v [PValue.pybool false, PValue.pystr "false",
          PValue.pystr "False", PValue.pystr "0", PValue.pyint 0] then
        Except.ok { p with is_hidden_by_owner := false }
      else
        Except.error ApiError.badRequest) := by
  subst hu
  unfold PledgeDetail.patch
  simp [IsAuthenticatedOrReadOnly.has_permission,
    IsSupporterOrFundraiserOwnerOrReadOnly.has_object_permission,
    is_authenticated, req_user_eq, SAFE_METHODS]

/-- Helper: under Python equality, membership in the source's true-list is
exactly membership in `acceptedTrueForms`. -/
theorem pyIn_true_forms (v : PValue) :
    pyIn v [PValue.pybool true, PValue.pystr "true", PValue.pystr "True",
      PValue.pystr "1", PValue.pyint 1] = true ↔ v ∈ acceptedTrueForms := by
  cases v with
  | pybool b => cases b <;> simp [pyIn, pyEq, acceptedTrueForms]
  | pyint n => simp [pyIn, pyEq, acceptedTrueForms]
  | pystr s => simp [pyIn, pyEq, acceptedTrueForms]

/-- Helper: under Python equality, membership in the source's false-list is
exactly membership in `acceptedFalseForms`. -/
theorem pyIn_false_forms (v : PValue) :
    pyIn v [PValue.pybool false, PValue.pystr "false", PValue.pystr "False",
      PValue.pystr "0", PValue.pyint 0] = true ↔ v ∈ acceptedFalseForms := by
  cases v with
  | pybool b => cases b <;> simp [pyIn, pyEq, acceptedFalseForms]
  | pyint n => simp [pyIn, pyEq, acceptedFalseForms]
  | pystr s => simp [pyIn, pyEq, acceptedFalseForms]

/-- Helper: no value is both an accepted true form and an accepted false
form. -/
theorem accepted_forms_disjoint (v : PValue) (ht : v ∈ acceptedTrueForms) :
    v ∉ acceptedFalseForms := by
  fin_cases ht <;> decide

/-- C3 counterexample: the capitalised string "True" equals (by Python
equality) none of the claim's listed accepted forms, yet the owner's PATCH
carrying it succeeds and hides the pledge instead of failing with a
validation error. -/
theorem patch_accepts_unlisted_capitalised_string :
    pyIn (PValue.pystr "True") [PValue.pybool true, PValue.pybool false,
      PValue.pystr "true", PValue.pystr "false", PValue.pystr "1",
      PValue.pystr "0", PValue.pyint 1, PValue.pyint 0] = false ∧
    PledgeDetail.patch (Principal.auth alice) bob_pledge
      (some (PValue.pystr "True"))
      = Except.ok { bob_pledge with is_hidden_by_owner := true } := by
  constructor
  · rfl
  · rfl

/-- C3 (amended): for a hide-toggle PATCH by the fundraiser owner, the
accepted payload values are exactly boolean true/false, the ints 1/0, and
the strings "true"/"True"/"1"/"false"/"False"/"0"; any other supplied
value, and a missing key, fails with a validation error — and an error
response saves nothing, so the stored hidden flag is unchanged. -/
theorem patch_accepted_forms (p : Pledge) (u : User) (payload : Option PValue)
    (hu : u = p.fundraiser.owner) :
    (payload = none →
      PledgeDetail.patch (Principal.auth u) p payload
        = Except.error ApiError.badRequest) ∧
    (∀ v, payload = some v →
      (v ∈ acceptedTrueForms →
        PledgeDetail.patch (Principal.auth u) p payload
          = Except.ok { p with is_hidden_by_owner := true }) ∧
      (v ∈ acceptedFalseForms →
        PledgeDetail.patch (Principal.auth u) p payload
          = Except.ok { p with is_hidden_by_owner := false }) ∧
      (v ∉ acceptedTrueForms → v ∉ acceptedFalseForms →
        PledgeDetail.patch (Principal.auth u) p payload
          = Except.error ApiError.badRequest)) := by
  constructor
  · intro h
    subst h
    exact PledgeDetail.patch_owner_none p u hu
  · intro v hv
    subst hv
    rw [PledgeDetail.patch_owner_some p u hu v]
    refine ⟨fun ht => ?_, fun hf => ?_, fun ht hf => ?_⟩
    · have h1 := (pyIn_true_forms v).mpr ht
      simp [h1]
    · have h0 : v ∉ acceptedTrueForms :=
        fun ht => accepted_forms_disjoint v ht hf
      have h1 : pyIn v [PValue.pybool true, PValue.pystr "true",
          PValue.pystr "True", PValue.pystr "1", PValue.pyint 1] = false := by
        rw [Bool.eq_false_iff]
        exact fun hh => h0 ((pyIn_true_forms v).mp hh)
      have h2 := (pyIn_false_forms v).mpr hf
      simp [h1, h2]
    · have h1 : pyIn v [PValue.pybool true, PValue.pystr "true",
          PValue.pystr "True", PValue.pystr "1", PValue.pyint 1] = false := by
        rw [Bool.eq_false_iff]
        exact fun hh => ht ((pyIn_true_forms v).mp hh)
      have h2 : pyIn v [PValue.pybool false, PValue.pystr "false",
          PValue.pystr "False", PValue.pystr "0", PValue.pyint 0] = false := by
        rw [Bool.eq_false_iff]
        exact fun hh => hf ((pyIn_false_forms v).mp hh)
      simp [h1, h2]

/-- C3 witness: on the fixture pledge, the owner's PATCH with boolean true
succeeds, while the string "yes" and a missing key each yield a validation
error. -/
theorem patch_accepted_forms_witness :
    PledgeDetail.patch (Principal.auth alice) bob_pledge
      (some (PValue.pybool true))
      = Except.ok { bob_pledge with is_hidden_by_owner := true } ∧
    PledgeDetail.patch (Principal.auth alice) bob_pledge
      (some (PValue.pystr "yes")) = Except.error ApiError.badRequest ∧
    PledgeDetail.patch (Principal.auth alice) bob_pledge none
      = Except.error ApiError.badRequest := by
  refine ⟨?_, ?_, ?_⟩
  · exact ((patch_accepted_forms bob_pledge alice (some (PValue.pybool true))
      rfl).2 (PValue.pybool true) rfl).1 (by decide)
  · exact (((patch_accepted_forms bob_pledge alice (some (PValue.pystr "yes"))
      rfl).2 (PValue.pystr "yes") rfl).2.2 (by decide) (by decide))
  · exact (patch_accepted_forms bob_pledge alice none rfl).1 rfl

/-- C5: a PATCH never changes the stored comment, whoever sends it and
whatever the payload; hiding then unhiding by the owner returns the pledge
to its visible state with the comment bit-for-bit intact; and every viewer
of the unhidden pledge reads the original comment. -/
theorem hide_then_unhide_preserves_comment (p : Pledge) (u : User)
    (hu : u = p.fundraiser.owner) :
    (∀ requester payload p2,
      PledgeDetail.patch requester p payload = Except.ok p2 →
        p2.comment = p.comment) ∧
    PledgeDetail.patch (Principal.auth u) p (some (PValue.pybool true))
      = Except.ok { p with is_hidden_by_owner := true } ∧
    PledgeDetail.patch (Principal.auth u) { p with is_hidden_by_owner := true }
      (some (PValue.pybool false))
      = Except.ok { p with is_hidden_by_owner := false } ∧
    (∀ viewer, (PledgeSerializer.to_representation
        { p with is_hidden_by_owner := false } viewer).comment = p.comment) := by
  refine ⟨?_, ?_, ?_, ?_⟩
  · intro requester payload p2 h
    unfold PledgeDetail.patch at h
    repeat' split at h
    all_goals simp_all
    all_goals subst h; rfl
  · rw [PledgeDetail.patch_owner_some p u hu]
    rfl
  · rw [PledgeDetail.patch_owner_some { p with is_hidden_by_owner := true } u hu]
    rfl
  · intro viewer
    rw [PledgeSerializer.to_representation_spec]
    simp [PledgeSerializer.base_fields]

/-- C5 witness: on the hidden fixture pledge the owner's unhide PATCH
succeeds and keeps the comment, which every viewer then reads. -/
theorem hide_then_unhide_preserves_comment_witness :
    PledgeDetail.patch (Principal.auth alice) bob_pledge
      (some (PValue.pybool true)) = Except.ok hidden_pledge ∧
    PledgeDetail.patch (Principal.auth alice) hidden_pledge
      (some (PValue.pybool false)) = Except.ok bob_pledge ∧
    (PledgeSerializer.to_representation bob_pledge Principal.anonymous).comment
      = "Happy to help" := by
  have h := hide_then_unhide_preserves_comment bob_pledge alice rfl
  refine ⟨h.2.1, ?_, ?_⟩
  · exact h.2.2.1
  · exact h.2.2.2 Principal.anonymous

/-- Helper: a pledge PUT succeeds exactly for the supporter, applying the
comment and anonymous slots of the payload; every other principal is
rejected (anonymous as unauthenticated, any other user as forbidden). -/
theorem PledgeDetail.put_spec (requester : Principal) (p : Pledge)
    (data : PledgePutData) :
    PledgeDetail.put requester p data =
      (if requester = Principal.auth p.supporter then
        match data.comment with
        | some c =>
            if c.trim = "" then
              Except.error ApiError.badRequest
            else
              Except.ok
                { p with
                    comment := c.trim
                    anonymous := data.anonymous.getD p.anonymous }
        | none =>
            Except.ok { p with anonymous := data.anonymous.getD p.anonymous }
      else
        match requester with
        | Principal.anonymous => Except.error ApiError.unauthenticated
        | Principal.auth _ => Except.error ApiError.forbidden) := by
  cases requester with
  | anonymous =>
      unfold PledgeDetail.put
      simp [IsAuthenticatedOrReadOnly.has_permission, is_authenticated,
        SAFE_METHODS]
  | auth u =>
      by_cases hs : u = p.supporter
      · subst hs
        unfold PledgeDetail.put
        simp [IsAuthenticatedOrReadOnly.has_permission,
          IsSupporterOrFundraiserOwnerOrReadOnly.has_object_permission,
          is_authenticated, req_user_eq, SAFE_METHODS]
      · unfold PledgeDetail.put
        by_cases ho : u = p.fundraiser.owner <;>
          simp [IsAuthenticatedOrReadOnly.has_permission,
            IsSupporterOrFundraiserOwnerOrReadOnly.has_object_permission,
            is_authenticated, req_user_eq, SAFE_METHODS, hs, ho]

/-- C6: a pledge PUT that succeeds was issued by the supporter and kept
the amount, fundraiser, supporter, hidden flag and creation timestamp at
their previous values whatever the payload supplied for them; any other
authenticated requester is denied with Forbidden. -/
theorem put_edits_only_comment_and_anonymous (p : Pledge)
    (data : PledgePutData) :
    (∀ requester p2, PledgeDetail.put requester p data = Except.ok p2 →
      requester = Principal.auth p.supporter ∧
      p2.id = p.id ∧ p2.amount = p.amount ∧ p2.fundraiser = p.fundraiser ∧
      p2.supporter = p.supporter ∧
      p2.is_hidden_by_owner = p.is_hidden_by_owner ∧
      p2.date_created = p.date_created) ∧
    (∀ u : User, u ≠ p.supporter →
      PledgeDetail.put (Principal.auth u) p data
        = Except.error ApiError.forbidden) := by
  constructor
  · intro requester p2 h
    rw [PledgeDetail.put_spec] at h
    split at h
    · next hr =>
        subst hr
        refine ⟨rfl, ?_⟩
        split at h
        · split at h
          · cases h
          · injection h with h2
            subst h2
            simp
        · injection h with h2
          subst h2
          simp
    · next hr =>
        cases requester with
        | anonymous => cases h
        | auth u => cases h
  · intro u hu
    rw [PledgeDetail.put_spec]
    simp [hu]

/-- C6 witness: carol (not the supporter) is denied, and bob's successful
edit left the amount unchanged even though the payload tried to set it. -/
theorem put_edits_only_comment_and_anonymous_witness :
    PledgeDetail.put (Principal.auth carol) bob_pledge
      { comment := none, anonymous := some true, amount := some 999,
        fundraiser := some 99, supporter := some 3,
        is_hidden_by_owner := some true, date_created := some 999 }
      = Except.error ApiError.forbidden ∧
    ({ bob_pledge with anonymous := true } : Pledge).amount
      = bob_pledge.amount := by
  constructor
  · exact (put_edits_only_comment_and_anonymous bob_pledge
      { comment := none, anonymous := some true, amount := some 999,
        fundraiser := some 99, supporter := some 3,
        is_hidden_by_owner := some true, date_created := some 999 }).2
      carol (by decide)
  · exact ((put_edits_only_comment_and_anonymous bob_pledge
      { comment := none, anonymous := some true, amount := some 999,
        fundraiser := some 99, supporter := some 3,
        is_hidden_by_owner := some true, date_created := some 999 }).1
      (Principal.auth bob) { bob_pledge with anonymous := true } rfl).2.2.1

/-- Helper: a pledge DELETE succeeds exactly for the supporter and saves
the row with an empty comment; every other principal is rejected. -/
theorem PledgeDetail.delete_spec (requester : Principal) (p : Pledge) :
    PledgeDetail.delete requester p =
      (if requester = Principal.auth p.supporter then
        Except.ok { p with comment := "" }
      else
        match requester with
        | Principal.anonymous => Except.error ApiError.unauthenticated
        | Principal.auth _ => Except.error ApiError.forbidden) := by
  cases requester with
  | anonymous =>
      unfold PledgeDetail.delete
      simp [IsAuthenticatedOrReadOnly.has_permission, is_authenticated,
        SAFE_METHODS]
  | auth u =>
      by_cases hs : u = p.supporter
      · subst hs
        unfold PledgeDetail.delete
        simp [IsAuthenticatedOrReadOnly.has_permission,
          IsSupporterOrFundraiserOwnerOrReadOnly.has_object_permission,
          is_authenticated, req_user_eq, SAFE_METHODS]
      · unfold PledgeDetail.delete
        by_cases ho : u = p.fundraiser.owner <;>
          simp [IsAuthenticatedOrReadOnly.has_permission,
            IsSupporterOrFundraiserOwnerOrReadOnly.has_object_permission,
            is_authenticated, req_user_eq, SAFE_METHODS, hs, ho]

/-- C7: the supporter's DELETE saves the pledge with an empty comment and
changes nothing else — the row persists and a subsequent GET still serves
its id, amount, anonymous flag, fundraiser, supporter and hidden flag —
while any other authenticated requester is denied with Forbidden. -/
theorem delete_clears_comment_only (p : Pledge) :
    PledgeDetail.delete (Principal.auth p.supporter) p
      = Except.ok { p with comment := "" } ∧
    (∀ u : User, u ≠ p.supporter →
      PledgeDetail.delete (Principal.auth u) p
        = Except.error ApiError.forbidden) ∧
    (∀ viewer,
      (PledgeDetailSerializer.to_representation { p with comment := "" }
        viewer).id = p.id ∧
      (PledgeDetailSerializer.to_representation { p with comment := "" }
        viewer).amount = p.amount ∧
      (PledgeDetailSerializer.to_representation { p with comment := "" }
        viewer).anonymous = p.anonymous ∧
      (PledgeDetailSerializer.to_representation { p with comment := "" }
        viewer).fundraiser = p.fundraiser.id ∧
      (PledgeDetailSerializer.to_representation { p with comment := "" }
        viewer).supporter = p.supporter.id ∧
      (PledgeDetailSerializer.to_representation { p with comment := "" }
        viewer).is_hidden_by_owner = p.is_hidden_by_owner ∧
      (PledgeDetailSerializer.to_representation { p with comment := "" }
        viewer).comment = "") := by
  refine ⟨?_, ?_, ?_⟩
  · rw [PledgeDetail.delete_spec]
    simp
  · intro u hu
    rw [PledgeDetail.delete_spec]
    simp [hu]
  · intro viewer
    rw [PledgeDetailSerializer.agrees_with_list_serializer,
      PledgeSerializer.to_representation_spec]
    by_cases h : ({ p with comment := "" } : Pledge).is_hidden_by_owner = true ∧
        viewer ≠ Principal.auth ({ p with comment := "" } : Pledge).fundraiser.owner ∧
        viewer ≠ Principal.auth ({ p with comment := "" } : Pledge).supporter <;>
      simp [h, PledgeSerializer.base_fields]

/-- C7 witness: bob clears his comment and the stored row keeps its
amount; carol is denied; an anonymous GET afterwards still shows the
amount. -/
theorem delete_clears_comment_only_witness :
    PledgeDetail.delete (Principal.auth bob) bob_pledge
      = Except.ok { bob_pledge with comment := "" } ∧
    PledgeDetail.delete (Principal.auth carol) bob_pledge
      = Except.error ApiError.forbidden ∧
    (PledgeDetailSerializer.to_representation
      { bob_pledge with comment := "" } Principal.anonymous).amount
      = bob_pledge.amount := by
  refine ⟨?_, ?_, ?_⟩
  · exact (delete_clears_comment_only bob_pledge).1
  · exact (delete_clears_comment_only bob_pledge).2.1 carol (by decide)
  · exact ((delete_clears_comment_only bob_pledge).2.2
      Principal.anonymous).2.1

/-- Helper: a successful fundraiser validation never carries an owner, and
carries exactly the supplied optional fields. -/
theorem FundraiserSerializer.run_validation_ok (data : FundraiserPutData)
    (vd : FundraiserValidatedData)
    (h : FundraiserSerializer.run_validation data = Except.ok vd) :
    vd.owner = none ∧ vd.title = data.title ∧
    vd.description = data.description ∧ vd.image = data.image ∧
    vd.is_open = data.is_open ∧ vd.date_created = data.date_created ∧
    (data.goal = none → vd.goal = none) := by
  unfold FundraiserSerializer.run_validation at h
  split at h
  · rename_i g hg
    split at h
    · cases h
    · rename_i g2 hg2
      injection h with h2
      subst h2
      simp [hg]
  · rename_i hg
    injection h with h2
    subst h2
    simp

/-- C8: a successful fundraiser PUT keeps the owner and every omitted
field at their previous values, whatever the payload supplied (an owner
key never survives validation); and a created fundraiser's owner is the
authenticated creator. -/
theorem fundraiser_update_frame (f : Fundraiser) (requester : Principal)
    (data : FundraiserPutData) :
    (∀ f2, FundraiserDetail.put requester f data = Except.ok f2 →
      f2.owner = f.owner ∧
      (data.title = none → f2.title = f.title) ∧
      (data.description = none → f2.description = f.description) ∧
      (data.goal = none → f2.goal = f.goal) ∧
      (data.image = none → f2.image = f.image) ∧
      (data.is_open = none → f2.is_open = f.is_open) ∧
      (data.date_created = none → f2.date_created = f.date_created)) ∧
    (∀ (u : User) (cdata : FundraiserCreateData) (fresh_id now : Nat)
        (f2 : Fundraiser),
      FundraiserList.post (Principal.auth u) cdata fresh_id now
        = Except.ok f2 → f2.owner = u) := by
  constructor
  · intro f2 h
    unfold FundraiserDetail.put at h
    split at h
    · cases h
    · split at h
      · cases h
      · split at h
        · cases h
        · next vd heq =>
            have hv := FundraiserSerializer.run_validation_ok data vd heq
            injection h with h2
            subst h2
            unfold FundraiserDetailSerializer.update
            refine ⟨?_, ?_, ?_, ?_, ?_, ?_, ?_⟩
            · rw [hv.1]
              rfl
            · intro hnone
              rw [hv.2.1, hnone]
              rfl
            · intro hnone
              rw [hv.2.2.1, hnone]
              rfl
            · intro hnone
              rw [hv.2.2.2.2.2.2 hnone]
              rfl
            · intro hnone
              rw [hv.2.2.2.1, hnone]
              rfl
            · intro hnone
              rw [hv.2.2.2.2.1, hnone]
              rfl
            · intro hnone
              rw [hv.2.2.2.2.2.1, hnone]
              rfl
  · intro u cdata fresh_id now f2 h
    simp only [FundraiserList.post] at h
    unfold FundraiserSerializer.validate_goal at h
    by_cases hle : cdata.goal ≤ 0
    · rw [if_pos hle] at h
      cases h
    · rw [if_neg hle] at h
      injection h with h2
      subst h2
      rfl

/-- C8 witness: a PUT by alice retitling her fundraiser (and trying to set
`owner: 99`) keeps alice as owner; a fundraiser created by carol is owned
by carol. -/
theorem fundraiser_update_frame_witness :
    ({ school_fund with title := "New Title" } : Fundraiser).owner
      = school_fund.owner ∧
    ({ id := 30, title := "T", description := "D", goal := 5, image := "",
       is_open := true, date_created := 200, owner := carol } :
      Fundraiser).owner = carol := by
  constructor
  · exact ((fundraiser_update_frame school_fund (Principal.auth alice)
      { title := some "New Title", description := none, goal := none,
        image := none, is_open := none, date_created := none,
        owner := some 99 }).1
      { school_fund with title := "New Title" } rfl).1
  · exact (fundraiser_update_frame school_fund (Principal.auth carol)
      { title := none, description := none, goal := none, image := none,
        is_open := none, date_created := none, owner := none }).2
      carol
      { title := "T", description := "D", goal := 5, image := "",
        is_open := true }
      30 200
      { id := 30, title := "T", description := "D", goal := 5, image := "",
        is_open := true, date_created := 200, owner := carol }
      rfl

/-- C9: pledge creation and fundraiser creation reject a non-positive
amount or goal with a validation error (nothing is persisted), and accept
every positive amount and goal. -/
theorem creation_requires_positive_amount (u : User)
    (pdata : PledgeCreateData) (fdata : FundraiserCreateData)
    (fresh_id now : Nat) :
    (pdata.amount ≤ 0 →
      PledgeList.post (Principal.auth u) pdata fresh_id now
        = Except.error ApiError.badRequest) ∧
    (0 < pdata.amount →
      PledgeList.post (Principal.auth u) pdata fresh_id now
        = Except.ok
          { id := fresh_id, amount := pdata.amount,
            comment := pdata.comment, anonymous := pdata.anonymous,
            date_created := now, is_hidden_by_owner := false,
            fundraiser := pdata.fundraiser, supporter := u }) ∧
    (fdata.goal ≤ 0 →
      FundraiserList.post (Principal.auth u) fdata fresh_id now
        = Except.error ApiError.badRequest) ∧
    (0 < fdata.goal →
      FundraiserList.post (Principal.auth u) fdata fresh_id now
        = Except.ok
          { id := fresh_id, title := fdata.title,
            description := fdata.description, goal := fdata.goal,
            image := fdata.image, is_open := fdata.is_open,
            date_created := now, owner := u }) := by
  refine ⟨fun h => ?_, fun h => ?_, fun h => ?_, fun h => ?_⟩
  · simp [PledgeList.post, PledgeSerializer.validate_amount, h]
  · have h2 : ¬ pdata.amount ≤ 0 := not_le.mpr h
    simp [PledgeList.post, PledgeSerializer.validate_amount, h2]
  · simp [FundraiserList.post, FundraiserSerializer.validate_goal, h]
  · have h2 : ¬ fdata.goal ≤ 0 := not_le.mpr h
    simp [FundraiserList.post, FundraiserSerializer.validate_goal, h2]

/-- C9 witness: amounts 0 and -5 are rejected, amount 1 is accepted, on
concrete creation requests by bob. -/
theorem creation_requires_positive_amount_witness :
    PledgeList.post (Principal.auth bob)
      { amount := 0, comment := "x", anonymous := false,
        fundraiser := school_fund } 21 102
      = Except.error ApiError.badRequest ∧
    PledgeList.post (Principal.auth bob)
      { amount := -5, comment := "x", anonymous := false,
        fundraiser := school_fund } 21 102
      = Except.error ApiError.badRequest ∧
    PledgeList.post (Principal.auth bob)
      { amount := 1, comment := "x", anonymous := false,
        fundraiser := school_fund } 21 102
      = Except.ok
        { id := 21, amount := 1, comment := "x",
          anonymous := false, date_created := 102,
          is_hidden_by_owner := false, fundraiser := school_fund,
          supporter := bob } := by
  refine ⟨?_, ?_, ?_⟩
  · exact (creation_requires_positive_amount bob
      { amount := 0, comment := "x", anonymous := false,
        fundraiser := school_fund }
      { title := "T", description := "D", goal := 5, image := "",
        is_open := true } 21 102).1 (by decide)
  · exact (creation_requires_positive_amount bob
      { amount := -5, comment := "x", anonymous := false,
        fundraiser := school_fund }
      { title := "T", description := "D", goal := 5, image := "",
        is_open := true } 21 102).1 (by decide)
  · exact (creation_requires_positive_amount bob
      { amount := 1, comment := "x", anonymous := false,
        fundraiser := school_fund }
      { title := "T", description := "D", goal := 5, image := "",
        is_open := true } 21 102).2.1 (by decide)

end Crowdfunding
